import Mathlib

/-
Verification development for the OROCOS YouBot simulator component
(src/youbot_simulator/src/simulator.hpp).

The repository ships only the component's header: member declarations,
port/property layout and doc comments.  The method bodies (configureHook,
simulateState, simulateMeas, triggerTimer, factorial) are not under src/,
so the operational definitions below are modelled from the specification,
staying faithful to the declared types of the header (e.g. the process
noise mean/covariance are scalar doubles, the measurement output is a
scalar Float64, the timer ids are ints).  Numeric values are embedded as
rationals; the 32-bit machine arithmetic of the factorial helper is made
explicit with a wrap-around operation.
-/

namespace YoubotSim

/-! ## The factorial helper (simulator.hpp:166, `int factorial(int)`) -/

/-- Wrap an integer into the two's-complement range of a signed 32-bit
machine int, i.e. into the interval from -2^31 to 2^31 - 1. -/
def int32Wrap (z : ℤ) : ℤ :=
  (z + 2 ^ 31) % 2 ^ 32 - 2 ^ 31

/-- Modelled from the spec: the body of the `int factorial(int)` helper
declared at simulator.hpp:166 is not under src/; the header's doc comment
calls it a helper function calculating the factorial of an int, and the
spec calls the factorial computation a pure helper with no side effects.
Modelled as the naive recursive product, with every multiplication
performed in signed 32-bit machine arithmetic. -/
def factorial : ℕ → ℤ
  | 0 => 1
  | n + 1 => int32Wrap ((n + 1 : ℤ) * factorial n)

/-! ## Model builder (spec 4.1) -/

/-- StateDimension(level) = 3 * (level + 1): three planar degrees of
freedom (x, y, heading), each tracked to derivative order `level`. -/
def stateDimension (level : ℕ) : ℕ :=
  3 * (level + 1)

/-- Modelled from the spec: the set of supported continuity levels is not
enumerated by the header or the spec; the levels whose transition
coefficients 1/(j-i)! are computed exactly by the 32-bit factorial helper
are exactly those up to 12, so those are taken as the supported set. -/
def supportedLevel (level : ℕ) : Bool :=
  level ≤ 12

/-- Modelled from the spec: the state-space dimension at position level
only (header field m_posStateDimension) is the 3 planar degrees of
freedom, independent of the continuity level. -/
def posStateDimensionOf (_level : ℕ) : ℕ := 3

/-- Modelled from the spec: the measurement is a scalar distance-to-wall
(the header's measurement port carries a std_msgs/Float64), so the
measurement dimension computed from any level is 1. -/
def measDimensionOf (_level : ℕ) : ℕ := 1

/-- Modelled from the spec: the discrete-time transition structure built
by the model builder.  The state vector is ordered by derivative order,
x, y, heading first (header: the system state is (x,y,theta) for
level = 0, ...), so derivative order i of planar degree of freedom d
sits at index 3*i + d.  The sub-block entry at derivative orders (i, j)
of one degree of freedom is T^(j-i)/(j-i)! for j >= i and 0 otherwise,
the factorial being computed by the `factorial` helper above. -/
def transitionStructure (level : ℕ) (T : ℚ) : ℕ → ℕ → ℚ := fun r c =>
  if r < stateDimension level ∧ c < stateDimension level ∧
      r % 3 = c % 3 ∧ r / 3 ≤ c / 3 then
    T ^ (c / 3 - r / 3) / ((factorial (c / 3 - r / 3) : ℤ) : ℚ)
  else 0

/-- Modelled from the spec: the input coupling maps the two control
channels (linear velocity, angular velocity) into the model.  At level 0
the control acts over one period directly on x and heading (spec concrete
scenario: level 0, period T, control (u, 0) moves x by exactly u*T); at
level >= 1 the control enters the first-derivative rows of x and heading
only. -/
def inputCoupling (level : ℕ) (T : ℚ) : ℕ → ℕ → ℚ := fun r c =>
  if level = 0 then
    if r = 0 ∧ c = 0 then T else if r = 2 ∧ c = 1 then T else 0
  else
    if r = 3 ∧ c = 0 then 1 else if r = 5 ∧ c = 1 then 1 else 0

/-- Modelled from the spec: the measurement structure selects the
position-order component representing distance-to-target, by convention
the first planar coordinate; a single row, since the measurement is a
scalar. -/
def measRow : ℕ → ℚ := fun j => if j = 0 then 1 else 0

/-- The structures produced by the model builder for one configuration. -/
structure Model where
  dim : ℕ
  A : ℕ → ℕ → ℚ
  B : ℕ → ℕ → ℚ
  H : ℕ → ℚ

/-- Modelled from the spec: build(level, period) constructs the
transition structure, the input coupling and the measurement projection;
pure and deterministic. -/
def build (level : ℕ) (T : ℚ) : Model :=
  { dim := stateDimension level
    A := transitionStructure level T
    B := inputCoupling level T
    H := measRow }

/-! ## Vector and matrix-vector arithmetic over rational lists -/

/-- Dot product of two rational lists (shorter one padded implicitly). -/
def dotL (xs ys : List ℚ) : ℚ :=
  (List.zipWith (fun a b => a * b) xs ys).sum

/-- Row i of a matrix given as a function, truncated to n columns. -/
def rowL (A : ℕ → ℕ → ℚ) (i n : ℕ) : List ℚ :=
  (List.range n).map (A i)

/-- Matrix-vector product: n rows of A applied to the list x. -/
def matVecL (A : ℕ → ℕ → ℚ) (n : ℕ) (x : List ℚ) : List ℚ :=
  (List.range n).map fun i => dotL (rowL A i n) x

/-- Coupling of the two-channel control input (linear, angular) through
the input-coupling matrix, producing an n-vector. -/
def ctrlCouple (B : ℕ → ℕ → ℚ) (n : ℕ) (u : ℚ × ℚ) : List ℚ :=
  (List.range n).map fun i => B i 0 * u.1 + B i 1 * u.2

/-- Componentwise sum of two rational lists. -/
def vecAdd (xs ys : List ℚ) : List ℚ :=
  List.zipWith (fun a b => a + b) xs ys

/-! ## Noise sampler (spec 4.2) -/

/-- One step of a linear congruential pseudo-random generator. -/
def lcgNext (s : ℕ) : ℕ :=
  (1103515245 * s + 12345) % 2147483648

/-- Iterate the generator k steps from a seed. -/
def lcgIter : ℕ → ℕ → ℕ
  | 0, s => s
  | k + 1, s => lcgNext (lcgIter k s)

/-- Modelled from the spec: the k-th standard variate drawn from a seed;
a deterministic function of the seed, as the deterministic-seed mode
requires.  The exact distribution shape is irrelevant to the claims; the
draw is a rational in the interval from -1 to 1. -/
def stdDraw (seed k : ℕ) : ℚ :=
  ((lcgIter (k + 1) seed % 4001 : ℕ) : ℚ) / 2000 - 1

/-- A few Babylonian iterations approximating a square root, used as the
scalar Cholesky-style factor of a scalar covariance; exact at 0, which is
the only value the claims evaluate. -/
def heron (q : ℚ) : ℕ → ℚ
  | 0 => q
  | n + 1 => let p := heron q n; if p = 0 then 0 else (p + q / p) / 2

/-- Modelled from the spec: the scalar factor obtained by decomposing a
scalar covariance once at configuration time (Cholesky-style); zero for a
non-positive covariance. -/
def noiseScale (cov : ℚ) : ℚ :=
  if cov ≤ 0 then 0 else heron cov 8

/-- Modelled from the spec: sample(mean, covariance) for one scalar
component: the mean plus the factored covariance applied to a standard
variate. -/
def sampleNoise (mean cov : ℚ) (z : ℚ) : ℚ :=
  mean + noiseScale cov * z

/-! ## Configuration (spec 6, 7; header properties block) -/

/-- The configuration surface, following the header's property block:
level, scalar system-noise mean and covariance, scalar measurement-noise
mean and covariance (the measurement is a scalar Float64), declared
dimensions, period and the two timer ids. -/
structure Config where
  level : ℕ
  period : ℚ
  sysNoiseMean : ℚ
  sysNoiseCovariance : ℚ
  measNoiseMean : ℚ
  measNoiseCovariance : ℚ
  posStateDimension : ℕ
  measDimension : ℕ
  stateTimerId : ℤ
  measTimerId : ℤ

/-- The configuration-time failure taxonomy of the spec. -/
inductive ConfigError
  | unsupportedLevel
  | dimensionMismatch
  | covarianceNotPSD

/-- The per-tick failure taxonomy of the spec. -/
inductive TickError
  | dimensionMismatch
  | noiseSampleFailed

/-- The configured engine: the built model structures, the expanded
process-noise mean vector and covariance matrix over the full state
dimension, the measurement-noise parameters and the two timer ids;
immutable after configuration. -/
structure Engine where
  level : ℕ
  dim : ℕ
  A : ℕ → ℕ → ℚ
  B : ℕ → ℕ → ℚ
  H : ℕ → ℚ
  sysNoiseMeanVec : List ℚ
  sysNoiseCov : ℕ → ℕ → ℚ
  sysNoiseMean : ℚ
  sysNoiseCovScalar : ℚ
  measNoiseMean : ℚ
  measNoiseCov : ℚ
  stateTimerId : ℤ
  measTimerId : ℤ

/-- Modelled from the spec: the engine assembled from a valid
configuration.  The scalar system-noise parameters of the header are
expanded to a mean vector and a diagonal covariance matrix over the full
state dimension. -/
def mkEngine (c : Config) : Engine :=
  let m := build c.level c.period
  { level := c.level
    dim := m.dim
    A := m.A
    B := m.B
    H := m.H
    sysNoiseMeanVec := List.replicate m.dim c.sysNoiseMean
    sysNoiseCov := fun i j =>
      if i = j ∧ i < m.dim then c.sysNoiseCovariance else 0
    sysNoiseMean := c.sysNoiseMean
    sysNoiseCovScalar := c.sysNoiseCovariance
    measNoiseMean := c.measNoiseMean
    measNoiseCov := c.measNoiseCovariance
    stateTimerId := c.stateTimerId
    measTimerId := c.measTimerId }

/-- Modelled from the spec: configureHook validates the configuration
and either returns the fully built engine or fails with a
ConfigurationError, building nothing: unsupported continuity level,
declared dimensions disagreeing with the values computed from the level,
or a noise covariance whose decomposition fails (negative scalar
covariance, i.e. not positive semi-definite). -/
def configure (c : Config) : Except ConfigError Engine :=
  if ¬ supportedLevel c.level then .error .unsupportedLevel
  else if c.posStateDimension ≠ posStateDimensionOf c.level ∨
      c.measDimension ≠ measDimensionOf c.level then .error .dimensionMismatch
  else if c.sysNoiseCovariance < 0 ∨ c.measNoiseCovariance < 0 then
    .error .covarianceNotPSD
  else .ok (mkEngine c)

/-! ## Runtime state and the two simulation paths (spec 4.3-4.5) -/

/-- The mutable runtime of the component: the ground-truth state vector,
the last-value-wins control mailbox, the pseudo-random seed, the last
measurement and the two output channels modelled as emission logs. -/
structure SimState where
  state : List ℚ
  ctrl : ℚ × ℚ
  seed : ℕ
  lastMeas : ℚ
  stateOut : List (List ℚ)
  measOut : List ℚ

/-- The runtime right after configuration: the state vector is
zero-initialized over the full state dimension, no control has arrived
yet (the mailbox holds zero), nothing has been emitted. -/
def initSimState (e : Engine) (seed : ℕ) : SimState :=
  { state := List.replicate e.dim 0
    ctrl := (0, 0)
    seed := seed
    lastMeas := 0
    stateOut := []
    measOut := [] }

/-- A new control sample overwrites the single-slot mailbox
(last-value-wins). -/
def setControl (s : SimState) (u : ℚ × ℚ) : SimState :=
  { s with ctrl := u }

/-- The process-noise vector drawn for one state tick: one sample per
state component, from consecutive variates of the seed. -/
def noiseVec (e : Engine) (seed : ℕ) : List ℚ :=
  (List.range e.dim).map fun i =>
    sampleNoise e.sysNoiseMean e.sysNoiseCovScalar (stdDraw seed i)

/-- Modelled from the spec: simulateState reads the current state x and
the latest control u, draws process noise w, computes
x' = TransitionStructure*x + InputCoupling*u + w, replaces the state with
x' in one update and emits x' on the state-output channel; the seed
advances past the consumed draws. -/
def simulateState (e : Engine) (s : SimState) : SimState :=
  let w := noiseVec e s.seed
  let x := vecAdd (vecAdd (matVecL e.A e.dim s.state) (ctrlCouple e.B e.dim s.ctrl)) w
  { s with
    state := x
    stateOut := s.stateOut ++ [x]
    seed := lcgIter e.dim s.seed }

/-- Modelled from the spec: simulateMeas reads the current state without
mutating it, draws measurement noise v, computes
z = MeasurementStructure*x + v and emits z on the measurement-output
channel, remembering it as the last measurement. -/
def simulateMeas (e : Engine) (s : SimState) : SimState :=
  let v := sampleNoise e.measNoiseMean e.measNoiseCov (stdDraw s.seed 0)
  let z := dotL ((List.range e.dim).map e.H) s.state + v
  { s with
    lastMeas := z
    measOut := s.measOut ++ [z]
    seed := lcgNext s.seed }

/-- Modelled from the spec: the per-tick shape check; a state vector
whose length disagrees with the built model's dimension is a
DimensionMismatch raised at tick time. -/
def stateTick (e : Engine) (s : SimState) : Except TickError SimState :=
  if s.state.length = e.dim then .ok (simulateState e s)
  else .error .dimensionMismatch

/-- Modelled from the spec: the measurement tick with the same per-tick
shape check. -/
def measTick (e : Engine) (s : SimState) : Except TickError SimState :=
  if s.state.length = e.dim then .ok (simulateMeas e s)
  else .error .dimensionMismatch

/-- Modelled from the spec: the event dispatcher (triggerTimer).  A timer
event matching the state timer id runs the state tick, one matching the
measurement timer id runs the measurement tick, any other id is a defined
no-op; a failing tick leaves the previous runtime untouched and reports
the error outward, with no retry and no persisting error state. -/
def dispatch (e : Engine) (s : SimState) (ev : ℤ) : SimState × Option TickError :=
  if ev = e.stateTimerId then
    match stateTick e s with
    | .ok t => (t, none)
    | .error err => (s, some err)
  else if ev = e.measTimerId then
    match measTick e s with
    | .ok t => (t, none)
    | .error err => (s, some err)
  else (s, none)

/-- Run a sequence of timer events, each dispatched to completion before
the next is accepted. -/
def runEvents (e : Engine) (s : SimState) : List ℤ → SimState
  | [] => s
  | ev :: rest => runEvents e (dispatch e s ev).1 rest

/-- Iterate the state-update path k times. -/
def iterTicks (e : Engine) : ℕ → SimState → SimState
  | 0, s => s
  | k + 1, s => iterTicks e k (simulateState e s)

/-! ## Positive semi-definiteness over the embedded matrices -/

/-- A (truncated, n by n) matrix is positive semi-definite when every
quadratic form over it is non-negative. -/
def IsPSD (M : ℕ → ℕ → ℚ) (n : ℕ) : Prop :=
  ∀ x : ℕ → ℚ,
    0 ≤ ∑ i ∈ Finset.range n, ∑ j ∈ Finset.range n, x i * M i j * x j

/-- Symmetry of a (truncated) matrix. -/
def IsSymm (M : ℕ → ℕ → ℚ) : Prop :=
  ∀ i j, M i j = M j i

/-! ## Concrete instances used by the witnesses -/

/-- A valid concrete configuration: level 0, period 1/10, zero process
noise, measurement-noise variance 1/100, consistent dimensions, timer
ids 1 (state) and 2 (measurement). -/
def cfgGood : Config :=
  { level := 0
    period := 1/10
    sysNoiseMean := 0
    sysNoiseCovariance := 0
    measNoiseMean := 0
    measNoiseCovariance := 1/100
    posStateDimension := 3
    measDimension := 1
    stateTimerId := 1
    measTimerId := 2 }

/-- The engine built from the valid concrete configuration. -/
def engGood : Engine := mkEngine cfgGood

/-- The runtime right after configuring the concrete engine. -/
def simGood : SimState := initSimState engGood 0

/-- A runtime whose state vector has the wrong length (2 instead of 3),
the shape violation a collaborator could cause at tick time. -/
def simBad : SimState :=
  { state := [0, 0]
    ctrl := (0, 0)
    seed := 0
    lastMeas := 0
    stateOut := []
    measOut := [] }

/-- An invalid configuration: continuity level 13 has no exactly
representable factorials in the 32-bit helper, hence is unsupported. -/
def cfgBad : Config :=
  { cfgGood with level := 13 }

/-- A level-1 (position and velocity) configuration with zero process
noise, period 1/10. -/
def cfgLvl1 : Config :=
  { cfgGood with level := 1 }

/-- A level-1 runtime holding a unit velocity along x, zero control. -/
def simLvl1 : SimState :=
  { state := [0, 0, 0, 1, 0, 0]
    ctrl := (0, 0)
    seed := 0
    lastMeas := 0
    stateOut := []
    measOut := [] }

/-- A level-0 configuration with zero process noise and a free period. -/
def cfgZeroNoise (T : ℚ) : Config :=
  { level := 0
    period := T
    sysNoiseMean := 0
    sysNoiseCovariance := 0
    measNoiseMean := 0
    measNoiseCovariance := 0
    posStateDimension := 3
    measDimension := 1
    stateTimerId := 1
    measTimerId := 2 }

end YoubotSim

namespace YoubotSim

/-! ## Shared helper lemmas -/

/-- The factorial helper agrees with the mathematical factorial on all
inputs up to 12. -/
theorem factorial_eq_of_le (n : ℕ) (h : n ≤ 12) :
    factorial n = (Nat.factorial n : ℤ) := by
  revert h
  revert n
  decide

/-- The 32-bit wrap lands in the signed machine range. -/
theorem int32Wrap_bounds (z : ℤ) :
    -(2 ^ 31) ≤ int32Wrap z ∧ int32Wrap z < 2 ^ 31 := by
  unfold int32Wrap
  have h1 : (0 : ℤ) ≤ (z + 2 ^ 31) % 2 ^ 32 := Int.emod_nonneg _ (by norm_num)
  have h2 : (z + 2 ^ 31) % 2 ^ 32 < 2 ^ 32 := Int.emod_lt_of_pos _ (by norm_num)
  norm_num at h1 h2 ⊢
  omega

/-- The 32-bit wrap preserves residues modulo 2^32. -/
theorem int32Wrap_emod (z : ℤ) : int32Wrap z % 2 ^ 32 = z % 2 ^ 32 := by
  unfold int32Wrap
  omega

/-- The factorial helper's result always fits the signed 32-bit range. -/
theorem factorial_lt (n : ℕ) : factorial n < 2 ^ 31 := by
  cases n with
  | zero => norm_num [factorial]
  | succ m => exact (int32Wrap_bounds _).2

/-- The factorial helper computes the mathematical factorial modulo
2^32: machine multiplication wraps each step, preserving the residue. -/
theorem factorial_emod (n : ℕ) :
    factorial n % 2 ^ 32 = (Nat.factorial n : ℤ) % 2 ^ 32 := by
  induction n with
  | zero => rfl
  | succ m ih =>
    have h1 : factorial (m + 1) % 2 ^ 32 = ((m + 1 : ℤ) * factorial m) % 2 ^ 32 :=
      int32Wrap_emod _
    rw [h1, Int.mul_emod, ih, ← Int.mul_emod, Nat.factorial_succ]
    push_cast
    ring_nf

/-- supportedLevel decides the bound 12. -/
theorem supportedLevel_iff (level : ℕ) :
    supportedLevel level = true ↔ level ≤ 12 := by
  simp [supportedLevel]

/-- One state tick of a level-0 engine with zero process-noise mean and
covariance moves each planar coordinate by the period times the matching
control channel. -/
theorem simulateState_level0 (cfg : Config) (hlev : cfg.level = 0)
    (hm : cfg.sysNoiseMean = 0) (hcv : cfg.sysNoiseCovariance = 0)
    (s : SimState) (a b c : ℚ) (hs : s.state = [a, b, c]) :
    (simulateState (mkEngine cfg) s).state =
      [a + cfg.period * s.ctrl.1, b, c + cfg.period * s.ctrl.2] := by
  have hr3 : List.range 3 = [0, 1, 2] := rfl
  unfold simulateState
  dsimp only [mkEngine, build]
  rw [hlev, hm, hcv, hs]
  norm_num [stateDimension, matVecL, dotL, rowL, ctrlCouple, vecAdd, noiseVec,
    sampleNoise, noiseScale, transitionStructure, inputCoupling, factorial,
    hr3, List.map_cons, List.zipWith, List.sum_cons]

/-- The control mailbox is untouched by a state tick. -/
theorem simulateState_ctrl (e : Engine) (s : SimState) :
    (simulateState e s).ctrl = s.ctrl := rfl

/-- One state tick of a level-1 engine with zero process noise and zero
control integrates each velocity into its position over one period and
keeps the velocities. -/
theorem simulateState_level1 (cfg : Config) (hlev : cfg.level = 1)
    (hm : cfg.sysNoiseMean = 0) (hcv : cfg.sysNoiseCovariance = 0)
    (s : SimState) (x y th vx vy vth : ℚ)
    (hs : s.state = [x, y, th, vx, vy, vth]) (hc : s.ctrl = (0, 0)) :
    (simulateState (mkEngine cfg) s).state =
      [x + cfg.period * vx, y + cfg.period * vy, th + cfg.period * vth,
        vx, vy, vth] := by
  have hr6 : List.range 6 = [0, 1, 2, 3, 4, 5] := rfl
  unfold simulateState
  dsimp only [mkEngine, build]
  rw [hlev, hm, hcv, hs, hc]
  norm_num [stateDimension, matVecL, dotL, rowL, ctrlCouple, vecAdd, noiseVec,
    sampleNoise, noiseScale, transitionStructure, inputCoupling, factorial,
    int32Wrap, hr6, List.map_cons, List.zipWith, List.sum_cons]

/-- Iterated state ticks of a zero-noise level-0 engine with zero
control never move the state. -/
theorem iter_level0 (cfg : Config) (hlev : cfg.level = 0)
    (hm : cfg.sysNoiseMean = 0) (hcv : cfg.sysNoiseCovariance = 0) :
    ∀ (k : ℕ) (s : SimState) (a b c : ℚ), s.state = [a, b, c] →
      s.ctrl = (0, 0) → (iterTicks (mkEngine cfg) k s).state = s.state := by
  intro k
  induction k with
  | zero =>
    intro s a b c _ _
    rfl
  | succ n ih =>
    intro s a b c hs hc
    show (iterTicks (mkEngine cfg) n (simulateState (mkEngine cfg) s)).state
      = s.state
    have hstep : (simulateState (mkEngine cfg) s).state = [a, b, c] := by
      rw [simulateState_level0 cfg hlev hm hcv s a b c hs, hc]
      norm_num
    have hctrl : (simulateState (mkEngine cfg) s).ctrl = (0, 0) := by
      rw [simulateState_ctrl, hc]
    rw [ih (simulateState (mkEngine cfg) s) a b c hstep hctrl, hstep, hs]

/-- A diagonal matrix with a single non-negative value on the truncated
diagonal is positive semi-definite. -/
theorem IsPSD_diag (n : ℕ) (v : ℚ) (hv : 0 ≤ v) :
    IsPSD (fun i j => if i = j ∧ i < n then v else 0) n := by
  intro x
  have hsum : ∀ i ∈ Finset.range n,
      (∑ j ∈ Finset.range n, x i * (if i = j ∧ i < n then v else 0) * x j)
        = v * (x i * x i) := by
    intro i hi
    rw [Finset.sum_eq_single i]
    · rw [if_pos ⟨rfl, Finset.mem_range.1 hi⟩]
      ring
    · intro b _ hb
      rw [if_neg (by rintro ⟨h1, -⟩; exact hb h1.symm)]
      ring
    · intro hnot
      exact absurd hi hnot
  rw [Finset.sum_congr rfl hsum]
  exact Finset.sum_nonneg fun i _ => mul_nonneg hv (mul_self_nonneg _)

/-- A successful configuration implies every guard of configureHook
held, and pins the returned engine down to the built one. -/
theorem configure_ok_inv (c : Config) (e : Engine)
    (h : configure c = .ok e) :
    supportedLevel c.level = true ∧
    c.posStateDimension = posStateDimensionOf c.level ∧
    c.measDimension = measDimensionOf c.level ∧
    0 ≤ c.sysNoiseCovariance ∧ 0 ≤ c.measNoiseCovariance ∧
    e = mkEngine c := by
  unfold configure at h
  split_ifs at h with h1 h2 h3
  push_neg at h2 h3
  cases h
  exact ⟨by simpa using h1, h2.1, h2.2, h3.1, h3.2, rfl⟩

/-- The valid concrete configuration configures successfully into the
concrete engine. -/
theorem configure_cfgGood_ok : configure cfgGood = .ok engGood := by
  norm_num [configure, cfgGood, supportedLevel, posStateDimensionOf,
    measDimensionOf, engGood]

/-! ## Claim theorems -/

/-- C10: the factorial helper, modelled over machine signed 32-bit
arithmetic, returns the exact mathematical factorial for every n up to
12, while for n at least 13 it wraps modulo 2^32 and no longer equals
the mathematical factorial (13! already exceeds 2^32). -/
theorem factorial_int32_exact_then_wraps :
    (∀ n, n ≤ 12 → factorial n = (Nat.factorial n : ℤ)) ∧
    (∀ n, 13 ≤ n →
      factorial n % 2 ^ 32 = (Nat.factorial n : ℤ) % 2 ^ 32 ∧
      factorial n ≠ (Nat.factorial n : ℤ)) := by
  refine ⟨factorial_eq_of_le, fun n hn => ⟨factorial_emod n, ?_⟩⟩
  have h13 : Nat.factorial 13 ≤ Nat.factorial n := Nat.factorial_le hn
  have h13v : Nat.factorial 13 = 6227020800 := by decide
  have hlt : factorial n < 2 ^ 31 := factorial_lt n
  intro heq
  rw [heq] at hlt
  have : ((6227020800 : ℕ) : ℤ) ≤ (Nat.factorial n : ℤ) := by
    exact_mod_cast h13v ▸ h13
  norm_num at hlt this
  omega

/-- C10 witness: the theorem applied at n = 12 and n = 13. -/
theorem factorial_int32_exact_then_wraps_witness :
    factorial 12 = (Nat.factorial 12 : ℤ) ∧
    factorial 13 ≠ (Nat.factorial 13 : ℤ) :=
  ⟨factorial_int32_exact_then_wraps.1 12 (by decide),
   (factorial_int32_exact_then_wraps.2 13 (by decide)).2⟩

/-- C1: for every supported continuity level and period, the built
transition structure has shape stateDimension by stateDimension with
stateDimension level = 3 * (level + 1) (entries outside that square
vanish), and for each of the 3 planar degrees of freedom the sub-block
entry at derivative orders (i, j) is T^(j-i)/(j-i)! for j at least i and
0 for i greater than j, the factorial being computed by the pure
factorial helper. -/
theorem build_transition_taylor (level : ℕ) (T : ℚ)
    (h : supportedLevel level = true) :
    (build level T).dim = 3 * (level + 1) ∧
    (∀ r c, (build level T).dim ≤ r ∨ (build level T).dim ≤ c →
      (build level T).A r c = 0) ∧
    (∀ d i j, d < 3 → i ≤ level → j ≤ level →
      (build level T).A (3 * i + d) (3 * j + d) =
        if i ≤ j then T ^ (j - i) / (Nat.factorial (j - i) : ℚ) else 0) := by
  have hlev : level ≤ 12 := (supportedLevel_iff level).1 h
  refine ⟨rfl, ?_, ?_⟩
  · intro r c hrc
    show transitionStructure level T r c = 0
    unfold transitionStructure
    rw [if_neg]
    rintro ⟨h1, h2, -⟩
    simp only [build, stateDimension] at hrc h1 h2
    rcases hrc with h3 | h3 <;> omega
  · intro d i j hd hi hj
    show transitionStructure level T (3 * i + d) (3 * j + d) = _
    unfold transitionStructure
    have hmr : (3 * i + d) % 3 = d := by omega
    have hmc : (3 * j + d) % 3 = d := by omega
    have hdr : (3 * i + d) / 3 = i := by omega
    have hdc : (3 * j + d) / 3 = j := by omega
    rw [hmr, hmc, hdr, hdc]
    by_cases hij : i ≤ j
    · rw [if_pos ⟨by simp [stateDimension]; omega, by simp [stateDimension]; omega, rfl, hij⟩,
        if_pos hij, factorial_eq_of_le (j - i) (by omega)]
      norm_num
    · rw [if_neg (by tauto), if_neg hij]

/-- C1 witness: the theorem applied at level 2, period 1/2, with the
shape read off at an out-of-range entry and the sub-block entry read off
at derivative orders (0, 2) of the y degree of freedom. -/
theorem build_transition_taylor_witness :
    (build 2 (1/2)).dim = 3 * (2 + 1) ∧
    (build 2 (1/2)).A 9 0 = 0 ∧
    (build 2 (1/2)).A (3 * 0 + 1) (3 * 2 + 1) =
      if (0 : ℕ) ≤ 2 then (1/2 : ℚ) ^ (2 - 0) / (Nat.factorial (2 - 0) : ℚ)
      else 0 :=
  ⟨(build_transition_taylor 2 (1/2) (by decide)).1,
   (build_transition_taylor 2 (1/2) (by decide)).2.1 9 0 (Or.inl (by decide)),
   (build_transition_taylor 2 (1/2) (by decide)).2.2 1 0 2 (by decide) (by decide)
     (by decide)⟩

set_option maxRecDepth 8000 in
/-- C2: on every state tick, simulateState reads the current state and
the latest control (the mailbox starts at zero until a control arrives
and a new sample overwrites it), draws process noise, replaces the state
with TransitionStructure*x + InputCoupling*u + w in a single update,
emits exactly the new state on the state-output channel and writes
nothing to the measurement channel. -/
theorem simulateState_step (e : Engine) (s : SimState) (seed : ℕ) (u : ℚ × ℚ) :
    (simulateState e s).state =
      vecAdd (vecAdd (matVecL e.A e.dim s.state) (ctrlCouple e.B e.dim s.ctrl))
        (noiseVec e s.seed) ∧
    (simulateState e s).stateOut = s.stateOut ++ [(simulateState e s).state] ∧
    (simulateState e s).measOut = s.measOut ∧
    (simulateState e s).ctrl = s.ctrl ∧
    (initSimState e seed).ctrl = (0, 0) ∧
    (setControl s u).ctrl = u :=
  ⟨rfl, rfl, rfl, rfl, rfl, rfl⟩

set_option maxRecDepth 8000 in
/-- C4: simulateMeas never mutates the state (nor the control mailbox or
the state channel) and emits exactly MeasurementStructure*x + v on the
measurement channel, v being the fresh measurement-noise sample drawn
from the current seed. -/
theorem simulateMeas_readonly_emits (e : Engine) (s : SimState) :
    (simulateMeas e s).state = s.state ∧
    (simulateMeas e s).ctrl = s.ctrl ∧
    (simulateMeas e s).stateOut = s.stateOut ∧
    (simulateMeas e s).measOut = s.measOut ++
      [dotL ((List.range e.dim).map e.H) s.state +
        sampleNoise e.measNoiseMean e.measNoiseCov (stdDraw s.seed 0)] := by
  unfold simulateMeas
  exact ⟨rfl, rfl, rfl, rfl⟩

/-- C5: a timer event whose identifier matches neither the configured
state timer id nor the configured measurement timer id is a defined
no-op: the runtime is returned unchanged (state, last measurement and
both emission logs included) and no error is raised. -/
theorem unmatched_timer_noop (e : Engine) (s : SimState) (ev : ℤ)
    (h1 : ev ≠ e.stateTimerId) (h2 : ev ≠ e.measTimerId) :
    dispatch e s ev = (s, none) ∧
    (dispatch e s ev).1.state = s.state ∧
    (dispatch e s ev).1.lastMeas = s.lastMeas ∧
    (dispatch e s ev).1.stateOut = s.stateOut ∧
    (dispatch e s ev).1.measOut = s.measOut := by
  have key : dispatch e s ev = (s, none) := by
    unfold dispatch
    rw [if_neg h1, if_neg h2]
  exact ⟨key, by rw [key], by rw [key], by rw [key], by rw [key]⟩

/-- C5 witness: the theorem applied to the concrete engine (timer ids 1
and 2) and the unclassified event 3. -/
theorem unmatched_timer_noop_witness :
    dispatch engGood simGood 3 = (simGood, none) :=
  (unmatched_timer_noop engGood simGood 3 (by decide) (by decide)).1

/-- C7: when dispatching a tick reports a failure, only that tick is
aborted: the returned runtime is exactly the previous one (state,
outputs, everything untouched), and because no error state persists, any
subsequent event sequence behaves exactly as it would have from the
previous runtime. -/
theorem tick_failure_leaves_state (e : Engine) (s : SimState) (ev : ℤ)
    (h : (dispatch e s ev).2.isSome = true) :
    (dispatch e s ev).1 = s ∧
    ∀ evs, runEvents e (dispatch e s ev).1 evs = runEvents e s evs := by
  have key : (dispatch e s ev).1 = s := by
    unfold dispatch at h ⊢
    split_ifs at h ⊢ with hst hms
    · rcases hres : stateTick e s with err | t
      · rfl
      · rw [hres] at h
        simp at h
    · rcases hres : measTick e s with err | t
      · rfl
      · rw [hres] at h
        simp at h
    · rfl
  exact ⟨key, fun evs => by rw [key]⟩

/-- C7 witness: the concrete engine dispatched on a state tick with a
wrong-shaped state vector reports a dimension mismatch and returns the
runtime unchanged. -/
theorem tick_failure_leaves_state_witness :
    (dispatch engGood simBad 1).1 = simBad :=
  (tick_failure_leaves_state engGood simBad 1 (by decide)).1

/-- C8: in deterministic-seed mode, two engines built from identical
configurations and seeded identically draw identical sequences of
standard variates and produce identical runtimes (state and measurement
trajectories included) on every common event sequence. -/
theorem deterministic_seed_reproducible (c1 c2 : Config) (seed1 seed2 : ℕ)
    (e1 e2 : Engine) (hc : c1 = c2) (hs : seed1 = seed2)
    (h1 : configure c1 = .ok e1) (h2 : configure c2 = .ok e2) :
    (∀ k, stdDraw seed1 k = stdDraw seed2 k) ∧
    ∀ evs, runEvents e1 (initSimState e1 seed1) evs =
      runEvents e2 (initSimState e2 seed2) evs := by
  subst hc
  subst hs
  rw [h1] at h2
  injection h2 with he
  subst he
  exact ⟨fun k => rfl, fun evs => rfl⟩

/-- C3 counterexample: with process-noise covariance (and mean) zero and
constant zero control, the state is not in general a fixed point after
the first tick: at continuity level 1 a unit velocity along x keeps
increasing the position, so the state after two ticks differs from the
state after one tick. -/
theorem fixed_point_claim_false :
    (iterTicks (mkEngine cfgLvl1) 2 simLvl1).state ≠
      (iterTicks (mkEngine cfgLvl1) 1 simLvl1).state := by
  have e1 : (simulateState (mkEngine cfgLvl1) simLvl1).state =
      [1/10, 0, 0, 1, 0, 0] := by
    rw [simulateState_level1 cfgLvl1 rfl rfl rfl simLvl1 0 0 0 1 0 0 rfl rfl]
    norm_num [cfgLvl1, cfgGood]
  have hctrl1 : (simulateState (mkEngine cfgLvl1) simLvl1).ctrl = (0, 0) := by
    rw [simulateState_ctrl]
    rfl
  have e2 : (simulateState (mkEngine cfgLvl1)
      (simulateState (mkEngine cfgLvl1) simLvl1)).state =
      [1/5, 0, 0, 1, 0, 0] := by
    rw [simulateState_level1 cfgLvl1 rfl rfl rfl _ (1/10) 0 0 1 0 0 e1 hctrl1]
    norm_num [cfgLvl1, cfgGood]
  have i1 : iterTicks (mkEngine cfgLvl1) 1 simLvl1 =
      simulateState (mkEngine cfgLvl1) simLvl1 := rfl
  have i2 : iterTicks (mkEngine cfgLvl1) 2 simLvl1 =
      simulateState (mkEngine cfgLvl1)
        (simulateState (mkEngine cfgLvl1) simLvl1) := rfl
  rw [i1, i2, e1, e2]
  norm_num

/-- C3 amended: the fixed-point clause holds at continuity level 0
(where the transition structure is the identity), with zero
process-noise mean and covariance: with zero control, repeatedly calling
simulateState leaves the state unchanged from the very first tick on;
and in the concrete scenario (level 0, period 1/10, zero noise, control
(1, 0)) one state tick increases x by exactly 1/10 and leaves y and the
heading unchanged. -/
theorem level0_zero_noise_behavior (cfg : Config) (s : SimState)
    (a b c : ℚ) (hlev : cfg.level = 0) (hm : cfg.sysNoiseMean = 0)
    (hcv : cfg.sysNoiseCovariance = 0) (hs : s.state = [a, b, c]) :
    (s.ctrl = (0, 0) →
      ∀ k, (iterTicks (mkEngine cfg) k s).state = s.state) ∧
    (s.ctrl = (1, 0) → cfg.period = 1/10 →
      (simulateState (mkEngine cfg) s).state = [a + 1/10, b, c]) := by
  constructor
  · intro hc k
    exact iter_level0 cfg hlev hm hcv k s a b c hs hc
  · intro hc hper
    rw [simulateState_level0 cfg hlev hm hcv s a b c hs, hc, hper]
    norm_num

/-- C3 witness: the amended theorem applied to the zero-noise level-0
configuration with period 1/10, once from a stationary runtime (three
ticks) and once from the concrete scenario runtime with control (1, 0)
and initial state (2, 3, 4). -/
theorem level0_zero_noise_behavior_witness :
    (iterTicks (mkEngine (cfgZeroNoise (1/10))) 3
      { state := [2, 3, 4]
        ctrl := (0, 0)
        seed := 0
        lastMeas := 0
        stateOut := []
        measOut := [] }).state = [2, 3, 4] ∧
    (simulateState (mkEngine (cfgZeroNoise (1/10)))
      { state := [2, 3, 4]
        ctrl := (1, 0)
        seed := 0
        lastMeas := 0
        stateOut := []
        measOut := [] }).state = [2 + 1/10, 3, 4] :=
  ⟨(level0_zero_noise_behavior (cfgZeroNoise (1/10))
      { state := [2, 3, 4]
        ctrl := (0, 0)
        seed := 0
        lastMeas := 0
        stateOut := []
        measOut := [] } 2 3 4 rfl rfl rfl rfl).1 rfl 3,
   (level0_zero_noise_behavior (cfgZeroNoise (1/10))
      { state := [2, 3, 4]
        ctrl := (1, 0)
        seed := 0
        lastMeas := 0
        stateOut := []
        measOut := [] } 2 3 4 rfl rfl rfl rfl).2 rfl rfl⟩

/-- C6: a configuration with an unsupported continuity level, or with a
declared dimension disagreeing with the value computed from the level,
or with a process- or measurement-noise covariance that is not positive
semi-definite, fails configuration with a ConfigurationError: no engine
is built at all, so nothing is partially mutated and no active state is
reached. -/
theorem configure_rejects_invalid (c : Config)
    (h : supportedLevel c.level = false ∨
      c.posStateDimension ≠ posStateDimensionOf c.level ∨
      c.measDimension ≠ measDimensionOf c.level ∨
      ¬ IsPSD (fun i j => if i = j ∧ i < stateDimension c.level then
          c.sysNoiseCovariance else 0) (stateDimension c.level) ∨
      ¬ IsPSD (fun i j => if i = j ∧ i < 1 then
          c.measNoiseCovariance else 0) 1) :
    (∃ err, configure c = .error err) ∧ ∀ e, configure c ≠ .ok e := by
  have hfail : ¬ supportedLevel c.level = true ∨
      (c.posStateDimension ≠ posStateDimensionOf c.level ∨
        c.measDimension ≠ measDimensionOf c.level) ∨
      (c.sysNoiseCovariance < 0 ∨ c.measNoiseCovariance < 0) := by
    rcases h with h | h | h | h | h
    · left
      simp [h]
    · right
      left
      exact Or.inl h
    · right
      left
      exact Or.inr h
    · right
      right
      left
      by_contra hnn
      exact h (IsPSD_diag _ _ (le_of_not_lt hnn))
    · right
      right
      right
      by_contra hnn
      exact h (IsPSD_diag _ _ (le_of_not_lt hnn))
  unfold configure
  split_ifs with h1 h2 h3
  all_goals try exact ⟨⟨_, rfl⟩, fun e he => Except.noConfusion he⟩
  exact absurd hfail (by tauto)

/-- C6 witness: the theorem applied to the concrete invalid
configuration with the unsupported continuity level 13. -/
theorem configure_rejects_invalid_witness :
    (∃ err, configure cfgBad = .error err) ∧ ∀ e, configure cfgBad ≠ .ok e :=
  configure_rejects_invalid cfgBad (Or.inl (by decide))

/-- C9: after any successful configuration, the process noise is
described by a mean vector over the full state dimension and a
covariance matrix over the full state dimension, and that covariance
matrix is symmetric and positive semi-definite. -/
theorem processNoise_symm_psd (c : Config) (e : Engine)
    (h : configure c = .ok e) :
    e.sysNoiseMeanVec.length = stateDimension c.level ∧
    e.dim = stateDimension c.level ∧
    IsSymm e.sysNoiseCov ∧
    IsPSD e.sysNoiseCov e.dim := by
  obtain ⟨-, -, -, hcov, -, he⟩ := configure_ok_inv c e h
  subst he
  refine ⟨?_, rfl, ?_, ?_⟩
  · simp [mkEngine, build]
  · intro i j
    dsimp only [mkEngine]
    by_cases hij : i = j
    · subst hij
      rfl
    · rw [if_neg (by tauto), if_neg (by tauto)]
  · dsimp only [mkEngine]
    exact IsPSD_diag _ _ hcov

/-- C9 witness: the theorem applied to the concrete valid configuration
and its engine. -/
theorem processNoise_symm_psd_witness :
    engGood.sysNoiseMeanVec.length = stateDimension cfgGood.level ∧
    engGood.dim = stateDimension cfgGood.level ∧
    IsSymm engGood.sysNoiseCov ∧
    IsPSD engGood.sysNoiseCov engGood.dim :=
  processNoise_symm_psd cfgGood engGood configure_cfgGood_ok

/-- C8 witness: two copies of the concrete engine with seed 7 run the
same three-event schedule to the same runtime. -/
theorem deterministic_seed_reproducible_witness :
    runEvents engGood (initSimState engGood 7) [1, 2, 3] =
      runEvents engGood (initSimState engGood 7) [1, 2, 3] :=
  (deterministic_seed_reproducible cfgGood cfgGood 7 7 engGood engGood rfl rfl
    configure_cfgGood_ok configure_cfgGood_ok).2 [1, 2, 3]

end YoubotSim
